import Mathlib

/-!
Shallow embedding of `src/givenergy-optimizer-final.py`
(GivEnergy weather optimizer).

Numbers: Python floats are modelled as exact rationals (ℚ); the formulas
involved (subtraction, division by constants, `max`) are stated over ℚ.
The hour of a timestamp (`datetime.hour`) is a natural number below 24,
modelled as `Nat` (no bound is needed for any result below).

Fallible HTTP calls are modelled by passing the call's outcome
(transport error or a status code with an already-parsed body) as an
explicit argument; functions that Python lets return `None` return
`Option`.
-/

namespace GivEnergy

/-- Configured threshold `MIN_BATTERY_LEVEL = float(os.environ.get('MIN_BATTERY_LEVEL', '20.0'))`:
the default value, modelled as the configured threshold. -/
def MIN_BATTERY_LEVEL : ℚ := 20

/-- Configured threshold `CHARGE_THRESHOLD = float(os.environ.get('CHARGE_THRESHOLD', '3.0'))`:
the default value, modelled as the configured threshold. -/
def CHARGE_THRESHOLD : ℚ := 3

/-- One processed forecast entry as built by `get_weather_forecast`:
`{'datetime': ..., 'clouds': ..., 'weather': ..., 'description': ..., 'temperature': ...}`.
`hour` models `datetime.strptime(entry['datetime'], ...).hour`, the hour
component of the stored local-time string, which `estimate_solar_generation`
re-extracts. -/
structure ForecastEntry where
  datetime : String
  hour : Nat
  clouds : ℚ
  weather : String
  description : String
  temperature : ℚ
deriving Repr, DecidableEq

/-- The dict returned by `get_battery_status` on success. -/
structure BatteryStatus where
  battery_level : ℚ
  battery_power : ℚ
  solar_power : ℚ
  timestamp : Option String
deriving Repr, DecidableEq

/-- One estimate dict appended by `estimate_solar_generation`. -/
structure GenerationEstimate where
  datetime : String
  estimated_kwh : ℚ
  clouds : ℚ
  weather : String
deriving Repr, DecidableEq

/-- Python `daylight_factor = 0; if 6 <= hour < 20: daylight_factor = 1.0 - (abs(hour - 13) / 7)`. -/
def daylight_factor (hour : Nat) : ℚ :=
  if 6 ≤ hour ∧ hour < 20 then 1 - |(hour : ℚ) - 13| / 7 else 0

/-- Python `cloud_factor = 1.0 - (entry['clouds'] / 100.0)`. -/
def cloud_factor (clouds : ℚ) : ℚ := 1 - clouds / 100

/-- Python `estimated_kwh = daylight_factor * cloud_factor * 3.0`, before the
`max(0, ...)` floor applied when the estimate dict is built. -/
def unclamped_estimate (hour : Nat) (clouds : ℚ) : ℚ :=
  daylight_factor hour * cloud_factor clouds * 3

/-- The estimate dict `estimate_solar_generation` appends for one entry:
`{'datetime': entry['datetime'], 'estimated_kwh': max(0, estimated_kwh),
  'clouds': entry['clouds'], 'weather': entry['weather']}`. -/
def estimateEntry (e : ForecastEntry) : GenerationEstimate :=
  { datetime := e.datetime
    estimated_kwh := max 0 (unclamped_estimate e.hour e.clouds)
    clouds := e.clouds
    weather := e.weather }

/-- Python `estimate_solar_generation`: one estimate per forecast entry, in order.
(The Python guard `if not forecast: return []` agrees with `List.map` on
the empty list; the `None` case is guarded by the caller before the call.) -/
def estimate_solar_generation (forecast : List ForecastEntry) : List GenerationEstimate :=
  forecast.map estimateEntry

/-- Python `get_weather_forecast` keeps only the first 8 API items:
`forecast_data.get('list', [])[:8]`. Per-item field extraction is modelled
as already-parsed entries. -/
def truncate_forecast (items : List ForecastEntry) : List ForecastEntry :=
  items.take 8

/-- Python `total_estimated_generation = sum(e['estimated_kwh'] for e in generation_estimates)`. -/
def total_estimated_generation (estimates : List GenerationEstimate) : ℚ :=
  (estimates.map (·.estimated_kwh)).sum

/-- One slot of a timed-charge preset payload:
`{start_time, end_time, percent_limit}`. -/
structure Slot where
  start_time : String
  end_time : String
  percent_limit : Nat
deriving Repr, DecidableEq

/-- A `POST /inverter/{serial}/presets/timed-charge` payload:
`{enabled: bool, slots: [...]}`. -/
structure TimedChargePayload where
  enabled : Bool
  slots : List Slot
deriving Repr, DecidableEq

/-- Python `charge_start = "01:30:00"` in `schedule_overnight_charge`. -/
def charge_start : String := "01:30:00"

/-- Python `charge_end = "05:30:00"` in `schedule_overnight_charge`. -/
def charge_end : String := "05:30:00"

/-- The payload built by `schedule_overnight_charge`: enabled, one slot
from `charge_start[:5]` to `charge_end[:5]` at percent limit 100. -/
def schedule_payload : TimedChargePayload :=
  { enabled := true
    slots := [{ start_time := charge_start.take 5
                end_time := charge_end.take 5
                percent_limit := 100 }] }

/-- The payload built by `cancel_overnight_charge`: disabled, but still one
dummy slot because the API rejects an empty slot list. -/
def cancel_payload : TimedChargePayload :=
  { enabled := false
    slots := [{ start_time := "00:00", end_time := "00:00", percent_limit := 100 }] }

/-- Outcome of one `requests` call: either the transport layer raised, or a
response with the given status code came back. -/
inductive HttpResult where
  | transportError
  | response (status : Nat)
deriving Repr, DecidableEq

/-- The success check shared by both command methods:
`if response.status_code in [200, 201]: ... return True else ... return False`,
with the surrounding `try/except` returning `False` on a transport error. -/
def http_post_success (r : HttpResult) : Bool :=
  match r with
  | .transportError => false
  | .response status => status = 200 || status = 201

/-- Python `schedule_overnight_charge`, given the outcome of its POST: the payload
it sends and the boolean it returns. No exception escapes (the method's
`try/except` turns any raise into `return False`). -/
def schedule_overnight_charge (r : HttpResult) : TimedChargePayload × Bool :=
  (schedule_payload, http_post_success r)

/-- Python `cancel_overnight_charge`, given the outcome of its POST: the payload
it sends and the boolean it returns. -/
def cancel_overnight_charge (r : HttpResult) : TimedChargePayload × Bool :=
  (cancel_payload, http_post_success r)

/-- Python `decide_charging_strategy`, with the two fetch outcomes passed in.
Returns the payload of the single command it issues, or `none` when it
returns without issuing any. Mirrors the Python guards exactly:
`if not battery_status: return` (the dict, when present, is non-empty and
hence truthy) and `if not forecast: return` (falsy for `None` *and* for an
empty list). -/
def decide_charging_strategy (battery_status : Option BatteryStatus)
    (forecast : Option (List ForecastEntry)) : Option TimedChargePayload :=
  match battery_status with
  | none => none
  | some bs =>
    match forecast with
    | none => none
    | some f =>
      if f.isEmpty then none
      else
        let generation_estimates := estimate_solar_generation f
        let total := total_estimated_generation generation_estimates
        if total < CHARGE_THRESHOLD ∧ bs.battery_level < MIN_BATTERY_LEVEL then
          some schedule_payload
        else
          some cancel_payload

/-- The device's stored timed-charge preset after a run: an issued command
replaces the preset, no command leaves it unchanged. -/
def apply_decision (prior : Option TimedChargePayload)
    (cmd : Option TimedChargePayload) : Option TimedChargePayload :=
  match cmd with
  | none => prior
  | some p => some p

/-- Outcome of the `GET /communication-device/{system_id}` call made by
`get_inverter_serial`: a transport error, or a status code together with
the (possibly missing) nested `data.inverter.serial` field of the body. -/
inductive SerialResponse where
  | transportError
  | response (status : Nat) (serial : Option String)
deriving Repr, DecidableEq

/-- Python `get_inverter_serial`: returns the serial on a 200 response carrying the
nested field, and raises (modelled as `Except.error`) otherwise; the
`except` clause re-raises. -/
def get_inverter_serial (r : SerialResponse) : Except String String :=
  match r with
  | .transportError => .error "transport error"
  | .response status serial =>
    if status = 200 then
      match serial with
      | some s => .ok s
      | none => .error "Inverter serial not found in API response"
    else
      .error "Failed to get communication device info"

/-- Observable outcome of `__main__`: whether `start` ever armed the daily
timer (`schedule.every().day.at("17:00")`), and whether the process ended
by re-raising a startup error. -/
structure ProcessOutcome where
  timer_armed : Bool
  exited_with_error : Bool
deriving Repr, DecidableEq

/-- Model of the `__main__` block, given the identity-resolution call's outcome
(configuration assumed present): `GivEnergyWeatherOptimizer()` runs
`get_inverter_serial` inside `__init__`; if it raises, `optimizer.start()`
is never reached and the exception is re-raised; otherwise `start` arms the
daily timer (its endless polling loop is abstracted away to that effect). -/
def run_main (r : SerialResponse) : ProcessOutcome :=
  match get_inverter_serial r with
  | .error _ => { timer_armed := false, exited_with_error := true }
  | .ok _ => { timer_armed := true, exited_with_error := false }

/-! ## Helper lemmas -/

/-- The daylight factor is never negative: inside `[6,20)` the hour is an
integer, so `|hour - 13| ≤ 7` and the factor lies in `[0,1]`; outside it is 0. -/
theorem daylight_factor_nonneg (hour : Nat) : 0 ≤ daylight_factor hour := by
  unfold daylight_factor
  split
  · rename_i h
    have h6 : (6 : ℚ) ≤ (hour : ℚ) := by exact_mod_cast h.1
    have h19n : hour ≤ 19 := by omega
    have h19 : (hour : ℚ) ≤ 19 := by exact_mod_cast h19n
    have habs : |(hour : ℚ) - 13| ≤ 7 := by
      rw [abs_le]
      constructor <;> linarith
    linarith
  · exact le_refl 0

/-- The daylight factor is at most 1. -/
theorem daylight_factor_le_one (hour : Nat) : daylight_factor hour ≤ 1 := by
  unfold daylight_factor
  split
  · have habs : 0 ≤ |(hour : ℚ) - 13| := abs_nonneg _
    have : (0 : ℚ) ≤ |(hour : ℚ) - 13| / 7 := by positivity
    linarith
  · norm_num

/-- The cloud factor is nonnegative when cloud cover is at most 100. -/
theorem cloud_factor_nonneg (clouds : ℚ) (h : clouds ≤ 100) : 0 ≤ cloud_factor clouds := by
  unfold cloud_factor
  linarith

/-- The cloud factor is at most 1 when cloud cover is nonnegative. -/
theorem cloud_factor_le_one (clouds : ℚ) (h : 0 ≤ clouds) : cloud_factor clouds ≤ 1 := by
  unfold cloud_factor
  have : 0 ≤ clouds / 100 := by positivity
  linarith

/-- With cloud cover at most 100 the unclamped estimate is already nonnegative
(the hour is an integer, so the daylight factor cannot go negative). -/
theorem unclamped_estimate_nonneg (hour : Nat) (clouds : ℚ) (h : clouds ≤ 100) :
    0 ≤ unclamped_estimate hour clouds := by
  unfold unclamped_estimate
  have h1 := daylight_factor_nonneg hour
  have h2 := cloud_factor_nonneg clouds h
  positivity

/-- With cloud cover in `[0,100]` the unclamped estimate is at most 3. -/
theorem unclamped_estimate_le_three (hour : Nat) (clouds : ℚ)
    (h0 : 0 ≤ clouds) (h100 : clouds ≤ 100) :
    unclamped_estimate hour clouds ≤ 3 := by
  unfold unclamped_estimate
  have hd0 := daylight_factor_nonneg hour
  have hd1 := daylight_factor_le_one hour
  have hc0 := cloud_factor_nonneg clouds h100
  have hc1 := cloud_factor_le_one clouds h0
  nlinarith

/-- The two command payloads differ (their `enabled` flags differ), so the two
commands are mutually exclusive. -/
theorem schedule_payload_ne_cancel_payload : schedule_payload ≠ cancel_payload := by
  intro h
  have h2 := congrArg TimedChargePayload.enabled h
  simp [schedule_payload, cancel_payload] at h2

/-- Concrete entry at 13:00 with a clear sky. -/
def entry_13_clear : ForecastEntry :=
  { datetime := "2025-06-02 13:00:00", hour := 13, clouds := 0
    weather := "Clear", description := "clear sky", temperature := 20 }

/-- Concrete entry at 13:00 with 10% cloud cover. -/
def entry_13_c10 : ForecastEntry :=
  { datetime := "2025-06-02 13:00:00", hour := 13, clouds := 10
    weather := "Clouds", description := "few clouds", temperature := 20 }

/-- Concrete entry at 13:00 with 20% cloud cover (the clouds of
`entry_13_c10` doubled, everything else equal). -/
def entry_13_c20 : ForecastEntry := { entry_13_c10 with clouds := 20 }

/-- Concrete battery status at 50% charge. -/
def battery_50 : BatteryStatus :=
  { battery_level := 50, battery_power := 0, solar_power := 0, timestamp := none }

/-- A forecast entry with its cloud cover replaced and all other fields fixed. -/
def withClouds (e : ForecastEntry) (c : ℚ) : ForecastEntry := { e with clouds := c }

/-! ## Claim theorems -/

/-- C2: the Generation Estimator returns one estimate per input entry — the
output has the same length as the input, its `i`-th element is derived from
the `i`-th input entry, and every estimated kWh is at least 0, with no
restriction on the input's cloud-cover or hour values. -/
theorem estimator_length_order_nonneg (f : List ForecastEntry) :
    (estimate_solar_generation f).length = f.length ∧
    (∀ i : Nat, (estimate_solar_generation f)[i]? = (f[i]?).map estimateEntry) ∧
    (∀ est ∈ estimate_solar_generation f, 0 ≤ est.estimated_kwh) := by
  refine ⟨List.length_map _ _, fun i => List.getElem?_map .., ?_⟩
  intro est hest
  simp only [estimate_solar_generation, List.mem_map] at hest
  obtain ⟨e, _, rfl⟩ := hest
  exact le_max_left 0 _

/-- C3: the estimated kWh is exactly
`max(0, daylight_factor * (1 - clouds/100) * 3.0)` with the daylight factor
0 outside `[6,20)` and `1 - |hour - 13|/7` inside; at hour 13 with clear sky
the estimate is exactly 3.0. -/
theorem estimator_formula (e : ForecastEntry) :
    (estimateEntry e).estimated_kwh
      = max 0 ((if 6 ≤ e.hour ∧ e.hour < 20 then 1 - |(e.hour : ℚ) - 13| / 7 else 0)
          * (1 - e.clouds / 100) * 3)
    ∧ (e.hour = 13 → e.clouds = 0 → (estimateEntry e).estimated_kwh = 3) := by
  constructor
  · rfl
  · intro h13 hc
    simp only [estimateEntry, unclamped_estimate, daylight_factor, cloud_factor, h13, hc]
    norm_num

/-- Witness for C3 at the concrete entry with hour 13 and clear sky. -/
theorem estimator_formula_witness : (estimateEntry entry_13_clear).estimated_kwh = 3 :=
  (estimator_formula entry_13_clear).2 rfl rfl

/-- C1 counterexample: a run in which both fetches succeed — the battery
fetch returns a status (50%) and the forecast fetch returns a (here empty)
list — but `decide_charging_strategy` issues neither command: Python's
`if not forecast:` also treats a successfully fetched empty list as absent,
so no command at all is issued, although the claim demands the disable
command (50 is not below `MIN_BATTERY_LEVEL`) and that exactly one command
be issued. -/
theorem decide_empty_forecast_no_command :
    decide_charging_strategy (some battery_50) (some []) = none := rfl

/-- C1 (amended): for every run in which the battery fetch succeeds and the
forecast fetch succeeds with a non-empty list, the scheduler issues the
enable command iff the total estimated kWh is strictly below
`CHARGE_THRESHOLD` and the battery level is strictly below
`MIN_BATTERY_LEVEL`; in every other such run (including equality with
either threshold) it issues the disable command, and exactly one of the
two commands is issued. -/
theorem decide_charging_strategy_thresholds (bs : BatteryStatus) (f : List ForecastEntry)
    (hf : f ≠ []) :
    (decide_charging_strategy (some bs) (some f) = some schedule_payload ↔
      total_estimated_generation (estimate_solar_generation f) < CHARGE_THRESHOLD ∧
        bs.battery_level < MIN_BATTERY_LEVEL) ∧
    (decide_charging_strategy (some bs) (some f) = some cancel_payload ↔
      ¬(total_estimated_generation (estimate_solar_generation f) < CHARGE_THRESHOLD ∧
        bs.battery_level < MIN_BATTERY_LEVEL)) ∧
    schedule_payload ≠ cancel_payload := by
  obtain ⟨a, t, rfl⟩ : ∃ a t, f = a :: t := by
    cases f with
    | nil => exact absurd rfl hf
    | cons a t => exact ⟨a, t, rfl⟩
  by_cases hc : total_estimated_generation (estimate_solar_generation (a :: t)) <
      CHARGE_THRESHOLD ∧ bs.battery_level < MIN_BATTERY_LEVEL
  · refine ⟨?_, ?_, schedule_payload_ne_cancel_payload⟩
    · simp [decide_charging_strategy, hc]
    · simp [decide_charging_strategy, hc,
        (schedule_payload_ne_cancel_payload : schedule_payload ≠ cancel_payload)]
  · refine ⟨?_, ?_, schedule_payload_ne_cancel_payload⟩
    · simp [decide_charging_strategy, hc,
        (Ne.symm schedule_payload_ne_cancel_payload : cancel_payload ≠ schedule_payload)]
    · simp [decide_charging_strategy, hc]

/-- Witness for C1 (amended): at 50% battery the disable command is issued
whatever the estimate. -/
theorem decide_charging_strategy_thresholds_witness :
    decide_charging_strategy (some battery_50) (some [entry_13_clear]) = some cancel_payload :=
  ((decide_charging_strategy_thresholds battery_50 [entry_13_clear] (by simp)).2.1).mpr
    (by
      rintro ⟨-, hb⟩
      norm_num [battery_50, MIN_BATTERY_LEVEL] at hb)

/-- C4: when either fetch returns an absent result, the run issues neither
command (the function returns `none`, and being a total Lean function it
returns normally — no exception escapes) and the device's stored
charge-window preset is unchanged. -/
theorem abort_on_fetch_failure (bs : Option BatteryStatus) (f : Option (List ForecastEntry))
    (prior : Option TimedChargePayload) (h : bs = none ∨ f = none) :
    decide_charging_strategy bs f = none ∧
      apply_decision prior (decide_charging_strategy bs f) = prior := by
  have hd : decide_charging_strategy bs f = none := by
    rcases h with rfl | rfl
    · rfl
    · cases bs <;> rfl
  exact ⟨hd, by rw [hd]; rfl⟩

/-- Witness for C4: absent battery status, a present forecast, and a prior
disabled preset — no command, preset unchanged. -/
theorem abort_on_fetch_failure_witness :
    decide_charging_strategy none (some [entry_13_clear]) = none ∧
      apply_decision (some cancel_payload)
        (decide_charging_strategy none (some [entry_13_clear])) = some cancel_payload :=
  abort_on_fetch_failure none (some [entry_13_clear]) (some cancel_payload) (Or.inl rfl)

/-- C5: the enable payload is enabled with exactly one slot 01:30–05:30 at
percent limit 100; the disable payload is disabled but still carries exactly
one (dummy) slot — never an empty slot list. -/
theorem payload_single_slot :
    schedule_payload.enabled = true ∧
    schedule_payload.slots =
      [{ start_time := "01:30", end_time := "05:30", percent_limit := 100 }] ∧
    schedule_payload.slots.length = 1 ∧
    cancel_payload.enabled = false ∧
    cancel_payload.slots.length = 1 ∧ cancel_payload.slots ≠ [] := by
  refine ⟨rfl, ?_, rfl, rfl, rfl, by simp [cancel_payload]⟩
  rfl

/-- C6: each command operation reports success exactly when the HTTP status
is 200 or 201; a transport error or any other status yields `false`, and
both operations are total functions — they return normally on every
outcome, so no exception propagates. -/
theorem command_success_iff (r : HttpResult) :
    ((schedule_overnight_charge r).2 = true ↔ r = .response 200 ∨ r = .response 201) ∧
    ((cancel_overnight_charge r).2 = true ↔ r = .response 200 ∨ r = .response 201) := by
  have h : http_post_success r = true ↔ r = .response 200 ∨ r = .response 201 := by
    cases r with
    | transportError => simp [http_post_success]
    | response s => simp [http_post_success]
  exact ⟨h, h⟩

/-- C7 counterexample: doubling the cloud cover from 10% to 20% (hour 13,
all else fixed) does not halve the cloud factor (0.8 versus 0.45) nor the
estimated kWh (2.4 versus 1.35), refuting the halving reading of the claim. -/
theorem doubling_clouds_does_not_halve :
    cloud_factor entry_13_c20.clouds ≠ cloud_factor entry_13_c10.clouds / 2 ∧
    (estimateEntry entry_13_c20).estimated_kwh ≠
      (estimateEntry entry_13_c10).estimated_kwh / 2 := by
  constructor
  · norm_num [cloud_factor, entry_13_c10, entry_13_c20]
  · norm_num [estimateEntry, unclamped_estimate, daylight_factor, cloud_factor,
      entry_13_c10, entry_13_c20]

/-- C7 (amended): the cloud factor is linear (affine) in cloud percentage:
with all other fields fixed, doubling the cloud-cover percentage (while the
doubled value stays at most 100) doubles the reduction of the estimated kWh
below the clear-sky (0% cloud) estimate. -/
theorem doubling_clouds_doubles_reduction (e : ForecastEntry) (_h0 : 0 ≤ e.clouds)
    (h2 : 2 * e.clouds ≤ 100) :
    (estimateEntry (withClouds e 0)).estimated_kwh
        - (estimateEntry (withClouds e (2 * e.clouds))).estimated_kwh
      = 2 * ((estimateEntry (withClouds e 0)).estimated_kwh
        - (estimateEntry e).estimated_kwh) := by
  have hc100 : e.clouds ≤ 100 := by linarith
  have h0' : (0 : ℚ) ≤ 100 := by norm_num
  simp only [estimateEntry, withClouds]
  rw [max_eq_right (unclamped_estimate_nonneg e.hour 0 h0'),
    max_eq_right (unclamped_estimate_nonneg e.hour (2 * e.clouds) h2),
    max_eq_right (unclamped_estimate_nonneg e.hour e.clouds hc100)]
  unfold unclamped_estimate cloud_factor
  ring

/-- Witness for C7 (amended) at hour 13, 10% clouds doubled to 20%. -/
theorem doubling_clouds_doubles_reduction_witness :
    0 ≤ entry_13_c10.clouds ∧ 2 * entry_13_c10.clouds ≤ 100 ∧
    (estimateEntry (withClouds entry_13_c10 0)).estimated_kwh
        - (estimateEntry (withClouds entry_13_c10 (2 * entry_13_c10.clouds))).estimated_kwh
      = 2 * ((estimateEntry (withClouds entry_13_c10 0)).estimated_kwh
        - (estimateEntry entry_13_c10).estimated_kwh) :=
  ⟨by norm_num [entry_13_c10], by norm_num [entry_13_c10],
    doubling_clouds_doubles_reduction entry_13_c10
      (by norm_num [entry_13_c10]) (by norm_num [entry_13_c10])⟩

/-- C8 counterexample: there is no forecast entry with cloud cover in
`[0,100]` — at any hour, boundary or not — whose unclamped product
`daylight_factor * cloud_factor * 3.0` is strictly negative: the hour is an
integer, so the daylight factor inside `[6,20)` is at least
`1 - 7/7 = 0`, and both factors are nonnegative. -/
theorem no_negative_unclamped_estimate :
    ¬ ∃ (hour : Nat) (clouds : ℚ),
        0 ≤ clouds ∧ clouds ≤ 100 ∧ unclamped_estimate hour clouds < 0 := by
  rintro ⟨hour, clouds, -, hc, hneg⟩
  exact absurd hneg (not_lt.mpr (unclamped_estimate_nonneg hour clouds hc))

/-- C8 (amended): for every entry with cloud cover at most 100 the unclamped
product is nonnegative, so the final floor at 0 never changes the value for
such entries; it can only take effect when cloud cover exceeds 100. -/
theorem unclamped_estimate_clamp_noop (hour : Nat) (clouds : ℚ) (hc : clouds ≤ 100) :
    0 ≤ unclamped_estimate hour clouds ∧
      max 0 (unclamped_estimate hour clouds) = unclamped_estimate hour clouds :=
  ⟨unclamped_estimate_nonneg hour clouds hc,
    max_eq_right (unclamped_estimate_nonneg hour clouds hc)⟩

/-- Witness for C8 (amended) at the daylight boundary hour 19 with 50% clouds. -/
theorem unclamped_estimate_clamp_noop_witness :
    (50 : ℚ) ≤ 100 ∧ 0 ≤ unclamped_estimate 19 50 ∧
      max 0 (unclamped_estimate 19 50) = unclamped_estimate 19 50 :=
  ⟨by norm_num, (unclamped_estimate_clamp_noop 19 50 (by norm_num)).1,
    (unclamped_estimate_clamp_noop 19 50 (by norm_num)).2⟩

/-- C9: when identity resolution fails — transport error, non-200 status, or
a 200 response missing the nested serial — `get_inverter_serial` raises
(returns an error), so `__main__` never arms the daily timer and the
process exits with an error instead of reaching a running state. -/
theorem startup_failure_never_arms_timer (r : SerialResponse)
    (h : r = .transportError ∨
      ∃ status serial, r = .response status serial ∧ (status ≠ 200 ∨ serial = none)) :
    (∃ msg, get_inverter_serial r = .error msg) ∧
    run_main r = { timer_armed := false, exited_with_error := true } := by
  have herr : ∃ msg, get_inverter_serial r = .error msg := by
    rcases h with rfl | ⟨status, serial, rfl, hcase⟩
    · exact ⟨"transport error", rfl⟩
    · rcases hcase with hs | rfl
      · exact ⟨"Failed to get communication device info",
          by simp [get_inverter_serial, hs]⟩
      · by_cases hs : status = 200
        · exact ⟨"Inverter serial not found in API response",
            by simp [get_inverter_serial, hs]⟩
        · exact ⟨"Failed to get communication device info",
            by simp [get_inverter_serial, hs]⟩
  obtain ⟨msg, hm⟩ := herr
  exact ⟨⟨msg, hm⟩, by simp [run_main, hm]⟩

/-- Witness for C9: a 404 response never arms the timer. -/
theorem startup_failure_never_arms_timer_witness :
    (∃ msg, get_inverter_serial (.response 404 none) = .error msg) ∧
    run_main (.response 404 none) = { timer_armed := false, exited_with_error := true } :=
  startup_failure_never_arms_timer (.response 404 none)
    (Or.inr ⟨404, none, rfl, Or.inl (by norm_num)⟩)

/-- C10: when every entry's cloud cover lies in `[0,100]`, each estimated
kWh is at most 3.0, and the total the Charge Scheduler sums over the
truncated (at most 8 entries) forecast is at most 24.0 kWh. -/
theorem total_generation_bounded (items : List ForecastEntry)
    (h : ∀ e ∈ items, 0 ≤ e.clouds ∧ e.clouds ≤ 100) :
    (∀ est ∈ estimate_solar_generation (truncate_forecast items), est.estimated_kwh ≤ 3) ∧
    total_estimated_generation (estimate_solar_generation (truncate_forecast items)) ≤ 24 := by
  have hb : ∀ est ∈ estimate_solar_generation (truncate_forecast items),
      est.estimated_kwh ≤ 3 := by
    intro est hest
    simp only [estimate_solar_generation, List.mem_map] at hest
    obtain ⟨e, he, rfl⟩ := hest
    have he' : e ∈ items := List.mem_of_mem_take he
    obtain ⟨h0, h100⟩ := h e he'
    have hle := unclamped_estimate_le_three e.hour e.clouds h0 h100
    simp only [estimateEntry]
    exact max_le (by norm_num) hle
  refine ⟨hb, ?_⟩
  have hx : ∀ x ∈ (estimate_solar_generation (truncate_forecast items)).map
      (·.estimated_kwh), x ≤ (3 : ℚ) := by
    intro x hmem
    simp only [List.mem_map] at hmem
    obtain ⟨est, hest, rfl⟩ := hmem
    exact hb est hest
  have hsum := List.sum_le_card_nsmul _ 3 hx
  have hlen : ((estimate_solar_generation (truncate_forecast items)).map
      (·.estimated_kwh)).length ≤ 8 := by
    simp only [List.length_map, estimate_solar_generation, truncate_forecast,
      List.length_take]
    omega
  have hlenq : (((estimate_solar_generation (truncate_forecast items)).map
      (·.estimated_kwh)).length : ℚ) ≤ 8 := by exact_mod_cast hlen
  calc total_estimated_generation (estimate_solar_generation (truncate_forecast items))
      = ((estimate_solar_generation (truncate_forecast items)).map
          (·.estimated_kwh)).sum := rfl
    _ ≤ ((estimate_solar_generation (truncate_forecast items)).map
          (·.estimated_kwh)).length • (3 : ℚ) := hsum
    _ = (((estimate_solar_generation (truncate_forecast items)).map
          (·.estimated_kwh)).length : ℚ) * 3 := by rw [nsmul_eq_mul]
    _ ≤ 24 := by linarith

/-- Witness for C10 on a clear-sky singleton forecast. -/
theorem total_generation_bounded_witness :
    (0 ≤ entry_13_clear.clouds ∧ entry_13_clear.clouds ≤ 100) ∧
    total_estimated_generation
      (estimate_solar_generation (truncate_forecast [entry_13_clear])) ≤ 24 :=
  ⟨by norm_num [entry_13_clear],
    (total_generation_bounded [entry_13_clear]
      (by
        intro e he
        simp only [List.mem_singleton] at he
        subst he
        norm_num [entry_13_clear])).2⟩

end GivEnergy
